import Mathlib

/-
Verification of the Telex code helper agent (app.py and telex_code_helper.py).
The repository contains two near duplicate variants of the same service; where a
claim touches both, both are embedded and named with an _app or _telex suffix.
Python string builtins (lower, strip, split, join, substring membership) are
modelled on the underlying character lists so every definition is executable.
-/

/-- Whitespace test matching what Python str.strip removes by default. -/
def pyIsSpace (c : Char) : Bool :=
  c = ' ' || c = '\t' || c = '\n' || c = '\r' || c = '\x0b' || c = '\x0c'

/-- Model of Python str.strip on the underlying character list. -/
def pyStripList (l : List Char) : List Char :=
  ((l.dropWhile pyIsSpace).reverse.dropWhile pyIsSpace).reverse

/-- Model of Python str.strip with the default whitespace argument. -/
def pyStrip (s : String) : String := ⟨pyStripList s.data⟩

/-- Model of Python str.lower on the ASCII alphabet. -/
def pyLower (s : String) : String := ⟨s.data.map Char.toLower⟩

/-- Model of Python str.upper on the ASCII alphabet. -/
def pyUpper (s : String) : String := ⟨s.data.map Char.toUpper⟩

/-- Model of Python str.title: an alphabetic character is uppercased when the
previous character is not alphabetic and lowercased otherwise. The boolean
argument records whether the previous character was alphabetic. -/
def pyTitleList : List Char → Bool → List Char
  | [], _ => []
  | c :: cs, prevAlpha =>
    (if c.isAlpha then (if prevAlpha then c.toLower else c.toUpper) else c)
      :: pyTitleList cs c.isAlpha

/-- Model of Python str.title. -/
def pyTitle (s : String) : String := ⟨pyTitleList s.data false⟩

/-- Boolean test that pat occurs at the head of l. -/
def listHasPrefix : List Char → List Char → Bool
  | _, [] => true
  | [], _ :: _ => false
  | x :: xs, y :: ys => (x == y) && listHasPrefix xs ys

/-- Boolean substring occurrence test on character lists. -/
def listContainsSub : List Char → List Char → Bool
  | [], pat => pat.isEmpty
  | x :: xs, pat => listHasPrefix (x :: xs) pat || listContainsSub xs pat

/-- Model of the Python membership test pat in s on strings. -/
def strContains (s pat : String) : Bool := listContainsSub s.data pat.data

/-- Model of Python str.split with an explicit separator character; the second
argument accumulates the current segment in reverse. -/
def pySplitAux (sep : Char) : List Char → List Char → List (List Char)
  | [], acc => [acc.reverse]
  | x :: xs, acc =>
    if x = sep then acc.reverse :: pySplitAux sep xs []
    else pySplitAux sep xs (x :: acc)

/-- Model of the Python expression code.split applied with a newline separator. -/
def pySplitLines (s : String) : List String :=
  (pySplitAux '\n' s.data []).map String.mk

/-- Model of the Python expression sep.join(xs). -/
def joinWith (sep : String) : List String → String
  | [] => ""
  | [x] => x
  | x :: y :: rest => x ++ sep ++ joinWith sep (y :: rest)

/-- Python truthiness of an optional string argument: absent and empty are falsy. -/
def pyTruthyStr : Option String → Bool
  | none => false
  | some s => if s = "" then false else true

/-- Model of the Python pattern any(word in text for word in words). -/
def anyKeyword (text : String) (words : List String) : Bool :=
  words.any (fun w => strContains text w)

/-- The four way intent classification described in the specification. -/
inductive Intent where
  | Analyze
  | Explain
  | Help
  | General
deriving DecidableEq

/-- Branch selector of process_user_message in app.py (lines 188-228): the
branch chosen by the if chain over the case folded message. -/
def classify_app (msg : String) : Intent :=
  let m := pyLower msg
  if anyKeyword m ["analyze", "review", "check code"] then Intent.Analyze
  else if anyKeyword m ["explain", "what is", "tell me about"] then Intent.Explain
  else if strContains m "help" then Intent.Help
  else Intent.General

/-- Branch selector of process_user_message in telex_code_helper.py
(lines 246-264): the branch chosen by the if chain over the case folded message. -/
def classify_telex (msg : String) : Intent :=
  let m := pyLower msg
  if anyKeyword m ["analyze", "review", "check code", "what\x27s wrong"] then Intent.Analyze
  else if anyKeyword m ["explain", "what is", "how does"] then Intent.Explain
  else if anyKeyword m ["help", "support", "assist"] then Intent.Help
  else Intent.General

/-- Classifier written from the words of the claim: first match wins over the
fixed keyword sets analyze/review/check code, then explain/what is/tell me
about, then help, otherwise General. -/
def classify_claim (msg : String) : Intent :=
  let m := pyLower msg
  if anyKeyword m ["analyze", "review", "check code"] then Intent.Analyze
  else if anyKeyword m ["explain", "what is", "tell me about"] then Intent.Explain
  else if strContains m "help" then Intent.Help
  else Intent.General

/-- Analysis record returned by the analyzers in telex_code_helper.py: the keys
analysis, suggestions, improvements and potential_issues of the response dict. -/
structure CodeAnalysisResult where
  analysis : String
  suggestions : List String
  improvements : List String
  potential_issues : List String
deriving DecidableEq

/-- Issue string for import star in telex_code_helper.py. -/
def msgPyImportIssue : String := "Avoid using \x27import *\x27 as it pollutes the namespace"

/-- Suggestion string for import star in telex_code_helper.py. -/
def msgPyImportSug : String := "Import specific functions/classes instead"

/-- Issue string for eval in telex_code_helper.py. -/
def msgPyEvalIssue : String := "Use of eval() can be dangerous"

/-- Suggestion string for eval in telex_code_helper.py. -/
def msgPyEvalSug : String := "Consider safer alternatives like ast.literal_eval()"

/-- Issue string for bare except in telex_code_helper.py. -/
def msgPyExceptIssue : String := "Bare except clause may catch too many exceptions"

/-- Suggestion string for bare except in telex_code_helper.py. -/
def msgPyExceptSug : String := "Catch specific exceptions instead"

/-- Improvement string for long code in telex_code_helper.py. -/
def msgPyBreak : String := "Consider breaking down long code into smaller functions"

/-- Improvement string for code without functions in telex_code_helper.py. -/
def msgPyOrganize : String := "Consider organizing code into functions for better reusability"

/-- Suggestion string for loose equality in telex_code_helper.py. -/
def msgJsEq : String := "Consider using === instead of == for strict equality checks"

/-- Suggestion string for var declarations in telex_code_helper.py. -/
def msgJsVar : String := "Prefer let/const over var for better scoping"

/-- Issue string for console.log in telex_code_helper.py. -/
def msgJsConsole : String := "Remove console.log statements before production deployment"

/-- Embedding of CodeHelperAgent._analyze_python_code in telex_code_helper.py
(lines 65-95). Appends to the issue, suggestion and improvement lists in the
fixed source order. -/
def analyze_python_code (code : String) (question : Option String) : CodeAnalysisResult :=
  let lines := pySplitLines code
  { analysis := "Python code analysis completed.",
    suggestions :=
      (if strContains code "import *" then [msgPyImportSug] else [])
      ++ (if strContains code "eval(" then [msgPyEvalSug] else [])
      ++ (if strContains code "except:" || strContains code "except Exception:"
          then [msgPyExceptSug] else []),
    improvements :=
      (if lines.length > 50 then [msgPyBreak] else [])
      ++ (if !(lines.any (fun l => strContains l "def ")) && lines.length > 10
          then [msgPyOrganize] else []),
    potential_issues :=
      (if strContains code "import *" then [msgPyImportIssue] else [])
      ++ (if strContains code "eval(" then [msgPyEvalIssue] else [])
      ++ (if strContains code "except:" || strContains code "except Exception:"
          then [msgPyExceptIssue] else []) }

/-- Embedding of CodeHelperAgent._analyze_js_code in telex_code_helper.py
(lines 97-116). The console.log condition is the literal Python conditional
expression of line 113, whose else arm is the constant True when the question
argument is falsy. -/
def analyze_js_code (code : String) (question : Option String) : CodeAnalysisResult :=
  { analysis := "JavaScript/TypeScript code analysis completed.",
    suggestions :=
      (if strContains code "==" && !(strContains code "===") then [msgJsEq] else [])
      ++ (if strContains code "var " then [msgJsVar] else []),
    improvements := [],
    potential_issues :=
      if (if pyTruthyStr question
          then strContains code "console.log"
               && !(strContains (pyLower (question.getD "")) "test")
          else true)
      then [msgJsConsole] else [] }

/-- Embedding of CodeHelperAgent._analyze_general_code in telex_code_helper.py
(lines 118-134). -/
def analyze_general_code (code : String) (language : String) (question : Option String) :
    CodeAnalysisResult :=
  { analysis := pyTitle language ++ " code analysis completed.",
    suggestions :=
      ["Ensure proper error handling", "Add comments for complex logic",
       "Follow language-specific best practices"],
    improvements :=
      ["Consider adding unit tests", "Review code for potential performance bottlenecks"],
    potential_issues := [] }

/-- Embedding of CodeHelperAgent.analyze_code in telex_code_helper.py
(lines 31-63): blank guard, then dispatch on the case folded language. The
try-except wrapper is not modelled since the embedded body cannot raise. -/
def analyze_code_telex (code : String) (language : String) (question : Option String) :
    CodeAnalysisResult :=
  if pyStrip code = "" then
    { analysis := "No code provided for analysis.",
      suggestions := [], improvements := [], potential_issues := [] }
  else if pyLower language = "python" then analyze_python_code code question
  else if pyLower language = "javascript" ∨ pyLower language = "typescript" then
    analyze_js_code code question
  else analyze_general_code code language question

/-- Analysis record returned by CodeHelperAgent.analyze_code in app.py: the
early blank return carries only the analysis key, so the other keys are
optional. -/
structure AppAnalysis where
  analysis : String
  suggestions : Option (List String)
  issues : Option (List String)
  line_count : Option Nat
deriving DecidableEq

/-- Embedding of CodeHelperAgent.analyze_code in app.py (lines 20-53). -/
def analyze_code_app (code : String) (language : String) : AppAnalysis :=
  if pyStrip code = "" then
    { analysis := "No code provided", suggestions := none, issues := none, line_count := none }
  else
    let issues :=
      if pyLower language = "python" then
        (if strContains code "import *" then ["Avoid \x27import *\x27 - it pollutes namespace"] else [])
        ++ (if strContains code "eval(" then ["eval() can be dangerous"] else [])
        ++ (if strContains code "except:" then ["Bare except clause"] else [])
      else []
    let pySugg :=
      if pyLower language = "python" then
        (if strContains code "import *" then ["Import specific functions instead"] else [])
        ++ (if strContains code "eval(" then ["Use ast.literal_eval() or safer alternatives"] else [])
        ++ (if strContains code "except:" then ["Catch specific exceptions"] else [])
      else []
    let lines := pySplitLines code
    let suggestions :=
      pySugg ++ (if lines.length > 50 then ["Consider breaking code into smaller functions"] else [])
    { analysis := "Analyzed " ++ language ++ " code with " ++ toString lines.length ++ " lines",
      suggestions := some suggestions, issues := some issues, line_count := some lines.length }

/-- Concrete JavaScript body used to refute the language independent structure
check claim: 55 one statement lines and no function marker. -/
def jsLongCode : String := joinWith "\n" (List.replicate 55 "alert(1);")

/-- Result record of CodeHelperAgent.explain_concept in telex_code_helper.py. -/
structure ConceptExplanation where
  concept : String
  explanation : String
  examples : String
deriving DecidableEq

/-- Explanation string for oop in telex_code_helper.py. -/
def telexOop : String := "Object-Oriented Programming (OOP) organizes software design around objects and classes rather than functions and logic."

/-- Explanation string for api in telex_code_helper.py. -/
def telexApi : String := "API (Application Programming Interface) defines interactions between multiple software applications."

/-- Explanation string for rest in telex_code_helper.py. -/
def telexRest : String := "REST (Representational State Transfer) is an architectural style for designing networked applications."

/-- Explanation string for mvc in telex_code_helper.py. -/
def telexMvc : String := "MVC (Model-View-Controller) separates an application into three interconnected components."

/-- Explanation string for docker in telex_code_helper.py. -/
def telexDocker : String := "Docker is a platform for developing, shipping, and running applications in containers."

/-- Explanation string for git in telex_code_helper.py. -/
def telexGit : String := "Git is a distributed version control system for tracking changes in source code."

/-- The explanations dict of telex_code_helper.py in insertion order. -/
def telexExplanations : List (String × String) :=
  [("oop", telexOop), ("api", telexApi), ("rest", telexRest),
   ("mvc", telexMvc), ("docker", telexDocker), ("git", telexGit)]

/-- Python oop example string in telex_code_helper.py. -/
def oopExamplePython : String := "class Dog:\n    def __init__(self, name):\n        self.name = name\n    def bark(self):\n        return \x27Woof!\x27"

/-- JavaScript oop example string in telex_code_helper.py. -/
def oopExampleJs : String := "class Dog \x7b\n    constructor(name) \x7b\n        this.name = name;\n    \x7d\n    bark() \x7b\n        return \x27Woof!\x27;\n    \x7d\n\x7d"

/-- General api example string in telex_code_helper.py. -/
def apiExampleGeneral : String := "REST APIs use HTTP methods:\nGET /users - retrieve users\nPOST /users - create user\nPUT /users/1 - update user\nDELETE /users/1 - delete user"

/-- The nested examples dict of _get_concept_examples in insertion order. -/
def examplesTable : List (String × List (String × String)) :=
  [("oop", [("python", oopExamplePython), ("javascript", oopExampleJs)]),
   ("api", [("general", apiExampleGeneral)])]

/-- Exact key lookup in an association list, modelling Python dict indexing. -/
def lookupAssoc (l : List (String × String)) (k : String) : Option String :=
  (l.find? (fun kv => kv.1 = k)).map (fun kv => kv.2)

/-- Embedding of CodeHelperAgent._get_concept_examples in telex_code_helper.py
(lines 162-179): language specific entry first when the language argument is
truthy and present, then the general entry, then the first entry. -/
def get_concept_examples (concept : String) (language : Option String) : String :=
  match (examplesTable.find? (fun kv => kv.1 = concept)).map (fun kv => kv.2) with
  | some tbl =>
    match (if pyTruthyStr language then lookupAssoc tbl (language.getD "") else none) with
    | some e => e
    | none =>
      match lookupAssoc tbl "general" with
      | some g => g
      | none => (tbl.headD ("", "")).2
  | none => "Examples available in language-specific documentation."

/-- Embedding of CodeHelperAgent.explain_concept in telex_code_helper.py
(lines 136-160): scan the explanations dict in insertion order and return at
the first key that occurs in the case folded concept. -/
def explain_concept_telex (concept : String) (language : Option String) : ConceptExplanation :=
  match telexExplanations.find? (fun kv => strContains (pyLower concept) kv.1) with
  | some kv =>
    { concept := concept, explanation := kv.2,
      examples := get_concept_examples kv.1 language }
  | none =>
    { concept := concept,
      explanation := "I\x27ll explain " ++ concept ++ ". This is a programming/development concept that involves...",
      examples := "Check official documentation for specific examples and implementations." }

/-- The fixed key set of the claim in its enumeration order. -/
def conceptKeys : List String := ["oop", "api", "rest", "mvc", "docker", "git"]

/-- Explanation text per key, written for the claim side reformulation. -/
def claimConceptText (k : String) : String :=
  if k = "oop" then telexOop
  else if k = "api" then telexApi
  else if k = "rest" then telexRest
  else if k = "mvc" then telexMvc
  else if k = "docker" then telexDocker
  else if k = "git" then telexGit
  else ""

/-- Concept lookup written from the words of the claim: case folded substring
match of the fixed keys, first key in enumeration order wins, and on no match a
generic templated sentence embedding the concept verbatim together with the
generic check documentation examples string. -/
def explainConceptClaim (concept : String) (language : Option String) : ConceptExplanation :=
  match conceptKeys.find? (fun k => strContains (pyLower concept) k) with
  | some k =>
    { concept := concept, explanation := claimConceptText k,
      examples := get_concept_examples k language }
  | none =>
    { concept := concept,
      explanation := "I\x27ll explain " ++ concept ++ ". This is a programming/development concept that involves...",
      examples := "Check official documentation for specific examples and implementations." }

/-- The concepts dict of CodeHelperAgent.explain_concept in app.py. -/
def appConcepts : List (String × String) :=
  [("oop", "Object-Oriented Programming organizes code around objects with properties and methods. It uses concepts like encapsulation, inheritance, and polymorphism."),
   ("api", "API (Application Programming Interface) allows different software to communicate. REST APIs use HTTP methods like GET, POST, PUT, DELETE."),
   ("rest", "REST is an architectural style for building web services using HTTP methods. It\x27s stateless and uses standard HTTP status codes."),
   ("mvc", "MVC (Model-View-Controller) separates application into three components: Model (data), View (UI), Controller (logic)."),
   ("docker", "Docker containers package applications with all dependencies, ensuring consistency across environments."),
   ("git", "Git is a distributed version control system for tracking code changes. It allows branching, merging, and collaboration.")]

/-- Embedding of CodeHelperAgent.explain_concept in app.py (lines 55-66):
exact dict lookup of the case folded concept with a default message. -/
def explain_concept_app (concept : String) : String :=
  match lookupAssoc appConcepts (pyLower concept) with
  | some v => v
  | none => concept ++ " is a programming concept worth learning! I can explain OOP, API, REST, MVC, Docker, Git."

/-- Analysis reply of process_user_message in app.py (lines 191-200). -/
def analyzeReplyApp : String := "🔍 **Code Analysis Ready**\n\nI can analyze your code!\n\n**How to use:**\n1️⃣ Paste your code directly in the message\n2️⃣ Specify the language if not Python\n3️⃣ I\x27ll provide suggestions and improvements\n\n**Example:**\n\"Analyze this Python code:\n```python\ndef calculate(a, b):\n    return a + b\n```\""

/-- Help reply of process_user_message in app.py (lines 208-218). -/
def helpReplyApp : String := "🤖 **Code Helper Agent - Help**\n\n**I can help you with:**\n• 🔍 Code Analysis\n• 📚 Concept Explanations\n• 💡 Best Practices\n\n**Try these commands:**\n- analyze this code\n- explain OOP\n- what is REST API"

/-- Welcome reply of process_user_message in app.py (lines 221-228). -/
def welcomeReplyApp : String := "👋 **Welcome to Code Helper!**\n\nI\x27m your AI programming assistant.\n\n• 🔍 Analyze and review your code\n• 📚 Explain programming concepts\n• 💡 Suggest best practices\n\nType \x27help\x27 to see options!"

/-- Embedding of process_user_message in app.py (lines 183-228). -/
def process_user_message_app (user_message : String) : String :=
  if user_message = "" then "Please provide a message for analysis."
  else
    let m := pyLower user_message
    if anyKeyword m ["analyze", "review", "check code"] then analyzeReplyApp
    else if anyKeyword m ["explain", "what is", "tell me about"] then
      let found := ((["oop", "api", "rest", "mvc", "docker", "git"] : List String).find?
        (fun c => strContains m c)).getD "programming"
      "📚 **" ++ pyUpper found ++ " Explanation**\n\n" ++ explain_concept_app found
    else if strContains m "help" then helpReplyApp
    else welcomeReplyApp

/-- Nested data item of a JSON-RPC message part; absent text is modelled by
none and read back with the empty default of dict get. -/
structure DataItem where
  kind : String
  text : Option String
deriving DecidableEq

/-- Message part of a JSON-RPC request in extract_user_message; an absent data
field is modelled by the empty list, matching the empty default of dict get. -/
structure MsgPart where
  kind : String
  text : Option String
  data : List DataItem
deriving DecidableEq

/-- Texts appended by the inner loop of extract_user_message over the data
items of one data part. -/
def collectDataTexts : List DataItem → List String
  | [] => []
  | it :: its =>
    (if it.kind = "text" then [it.text.getD ""] else []) ++ collectDataTexts its

/-- Texts appended by the outer loop of extract_user_message over the parts. -/
def collectPartTexts : List MsgPart → List String
  | [] => []
  | p :: ps =>
    (if p.kind = "text" then [p.text.getD ""]
     else if p.kind = "data" then collectDataTexts p.data
     else []) ++ collectPartTexts ps

/-- Embedding of extract_user_message in app.py (lines 71-91): collect the
texts, drop empty fragments, join with single spaces and strip. -/
def extract_user_message (parts : List MsgPart) : String :=
  pyStrip (joinWith " " ((collectPartTexts parts).filter (fun t => !(t == ""))))

/-- Fragment list written from the words of the claim: the text of every part
with kind text and the text of every nested data item with kind text inside
parts with kind data, in order. -/
def fragmentsClaim (parts : List MsgPart) : List String :=
  parts.foldr (fun p acc =>
    (if p.kind = "text" then [p.text.getD ""]
     else if p.kind = "data" then
       p.data.filterMap (fun it => if it.kind = "text" then some (it.text.getD "") else none)
     else []) ++ acc) []

/-- The parts array of the round trip example in the claim. -/
def exampleParts : List MsgPart :=
  [{ kind := "text", text := some "analyze ", data := [] },
   { kind := "data", text := none, data := [{ kind := "text", text := some "this" }] }]

/-- Output part shape of create_jsonrpc_response in app.py; the constant null
data and file_url fields of the source dict are not modelled. -/
structure PartJ where
  kind : String
  text : String
deriving DecidableEq

/-- Message entry used in the history and status fields of
create_jsonrpc_response in app.py. -/
structure HistoryEntry where
  kind : String
  role : String
  parts : List PartJ
  messageId : String
  taskId : Option String
deriving DecidableEq

/-- Artifact entry of create_jsonrpc_response in app.py. -/
structure ArtifactJ where
  artifactId : String
  name : String
  parts : List PartJ
deriving DecidableEq

/-- Status object of the task result in create_jsonrpc_response in app.py. -/
structure TaskStatus where
  state : String
  timestamp : String
  message : HistoryEntry
deriving DecidableEq

/-- Task result object of create_jsonrpc_response in app.py. -/
structure TaskResult where
  id : String
  contextId : String
  status : TaskStatus
  artifacts : List ArtifactJ
  history : List HistoryEntry
  kind : String
deriving DecidableEq

/-- Full JSON-RPC response envelope of create_jsonrpc_response in app.py. -/
structure JsonRpcResponse where
  jsonrpc : String
  id : String
  result : TaskResult
deriving DecidableEq

/-- Message entry constructor shared by the history and status fields. -/
def mkMessageEntry (role text msgId : String) (tid : Option String) : HistoryEntry :=
  { kind := "message", role := role, parts := [{ kind := "text", text := text }],
    messageId := msgId, taskId := tid }

/-- Embedding of create_jsonrpc_response in app.py (lines 93-181). The fresh
uuid4 values are modelled by an indexed supply consumed in source call order,
and the timestamp is passed in; request ids are modelled as optional strings
with the Python or-default for falsy values. -/
def create_jsonrpc_response (uuid : Nat → String) (timestamp : String)
    (request_id : Option String) (response_text : String)
    (user_message : Option String) (state : String) : JsonRpcResponse :=
  let task_id := uuid 0
  let context_id := uuid 1
  let addUser := pyTruthyStr user_message && decide (state = "completed")
  let history :=
    (if addUser then [mkMessageEntry "user" (user_message.getD "") (uuid 2) none] else [])
    ++ [mkMessageEntry "agent" response_text (uuid (if addUser then 3 else 2)) (some task_id)]
  let artifacts :=
    [{ artifactId := uuid (if addUser then 4 else 3), name := "assistantResponse",
       parts := [{ kind := "text", text := response_text }] : ArtifactJ }]
  { jsonrpc := "2.0",
    id := match request_id with
      | none => ""
      | some s => if s = "" then "" else s,
    result :=
      { id := task_id, contextId := context_id,
        status :=
          { state := state, timestamp := timestamp,
            message := mkMessageEntry "agent" response_text
              (uuid (if addUser then 5 else 4)) (some task_id) },
        artifacts := artifacts, history := history, kind := "task" } }

/-- Role and part texts of a history entry, used to state the shape claims. -/
def historyShape (e : HistoryEntry) : String × List String :=
  (e.role, e.parts.map (fun p => p.text))

/-- Part texts of an artifact, used to state the shape claims. -/
def artifactTexts (a : ArtifactJ) : List String := a.parts.map (fun p => p.text)

/-- Reply text of the unknown method branch of handle_lingflow in app.py. -/
def unknownMethodText : String := "Unknown method. Use \x27message/send\x27 or \x27help\x27."

/-- Reply text of the empty request branch of handle_lingflow in app.py. -/
def emptyRequestText : String := "Empty request received. Please provide valid JSON-RPC 2.0 data."

/-- Parsed JSON-RPC request body for handle_lingflow; a missing id or method
field reads back as the empty string and missing parts as the empty list. -/
structure RpcRequest where
  id : Option String
  method : Option String
  parts : List MsgPart
deriving DecidableEq

/-- Embedding of the handle_lingflow pipeline in app.py (lines 313-362): none
models an empty or unparseable body, which Flask delivers as the empty dict. -/
def handle_lingflow (uuid : Nat → String) (ts : String) (data : Option RpcRequest) :
    JsonRpcResponse :=
  match data with
  | none => create_jsonrpc_response uuid ts (some "") emptyRequestText none "failed"
  | some r =>
    if r.method.getD "" ≠ "message/send" then
      create_jsonrpc_response uuid ts (some (r.id.getD "")) unknownMethodText none "failed"
    else
      let user_message := extract_user_message r.parts
      create_jsonrpc_response uuid ts (some (r.id.getD ""))
        (process_user_message_app user_message) (some user_message) "completed"

/-- Every character of a matched pattern prefix occurs in the scanned list. -/
theorem mem_of_listHasPrefix : ∀ {p l : List Char}, listHasPrefix l p = true →
    ∀ {c : Char}, c ∈ p → c ∈ l := by
  intro p
  induction p with
  | nil => intro l _ c hc; cases hc
  | cons y ys ih =>
    intro l h c hc
    cases l with
    | nil => simp [listHasPrefix] at h
    | cons x xs =>
      simp only [listHasPrefix, Bool.and_eq_true, beq_iff_eq] at h
      rcases List.mem_cons.mp hc with hcy | hmem
      · rw [hcy, ← h.1]; exact List.mem_cons_self _ _
      · exact List.mem_cons_of_mem _ (ih h.2 hmem)

/-- Every character of an occurring substring occurs in the scanned list. -/
theorem mem_of_listContainsSub : ∀ {l p : List Char}, listContainsSub l p = true →
    ∀ {c : Char}, c ∈ p → c ∈ l := by
  intro l
  induction l with
  | nil =>
    intro p h c hc
    cases p with
    | nil => cases hc
    | cons z zs => simp [listContainsSub, List.isEmpty] at h
  | cons x xs ih =>
    intro p h c hc
    simp only [listContainsSub, Bool.or_eq_true] at h
    rcases h with h | h
    · exact mem_of_listHasPrefix h hc
    · exact List.mem_cons_of_mem _ (ih h hc)

/-- A list holding a non space character does not strip to the empty list. -/
theorem pyStripList_ne_nil {l : List Char} {c : Char} (hc : c ∈ l)
    (hs : pyIsSpace c = false) : pyStripList l ≠ [] := by
  intro h
  unfold pyStripList at h
  rw [List.reverse_eq_nil_iff, List.dropWhile_eq_nil_iff] at h
  have h2 : ∀ x ∈ l.dropWhile pyIsSpace, pyIsSpace x = true := by
    intro x hx
    exact h x (List.mem_reverse.mpr hx)
  have hsp : pyIsSpace c = true := by
    have hsplit := List.takeWhile_append_dropWhile (p := pyIsSpace) (l := l)
    rw [← hsplit] at hc
    rcases List.mem_append.mp hc with h4 | h4
    · exact List.mem_takeWhile_imp h4
    · exact h2 c h4
  rw [hsp] at hs
  cases hs

/-- A string containing a substring with a non space character does not strip
to the empty string. -/
theorem pyStrip_ne_empty {s pat : String} {c : Char} (h : strContains s pat = true)
    (hc : c ∈ pat.data) (hcs : pyIsSpace c = false) : pyStrip s ≠ "" := by
  intro he
  have hmem : c ∈ s.data := mem_of_listContainsSub h hc
  apply pyStripList_ne_nil hmem hcs
  have hd : (pyStrip s).data = ("" : String).data := congrArg String.data he
  simpa [pyStrip] using hd

/-- The inner loop of extract_user_message agrees with filterMap. -/
theorem collectDataTexts_eq (l : List DataItem) :
    collectDataTexts l =
      l.filterMap (fun it => if it.kind = "text" then some (it.text.getD "") else none) := by
  induction l with
  | nil => rfl
  | cons it its ih =>
    by_cases h : it.kind = "text" <;>
      simp [collectDataTexts, List.filterMap_cons, h, ih]

/-- The outer loop of extract_user_message agrees with the claim side
fragment collection. -/
theorem collectPartTexts_eq (parts : List MsgPart) :
    collectPartTexts parts = fragmentsClaim parts := by
  induction parts with
  | nil => rfl
  | cons p ps ih =>
    simp [collectPartTexts, fragmentsClaim, collectDataTexts_eq, ih]

/-- C1: intent classification is total over the four intents and is ordered
first match wins over the case folded text; the classifier of app.py realizes
exactly the keyword sets of the claim (the telex_code_helper.py variant has
extra keywords, see the counterexample). -/
theorem C1_intent_classification (msg : String) :
    classify_app msg = classify_claim msg := rfl

/-- C1 counterexample: the message support is classified Help by the
telex_code_helper.py variant, while the claimed keyword sets classify it
General. -/
theorem C1_counterexample :
    classify_telex "support" = Intent.Help
    ∧ classify_claim "support" = Intent.General := by
  constructor <;> rfl

/-- C3 amended: on the round trip example the extraction yields the string
analyze followed by two spaces and this, because the first fragment keeps its
trailing space and the join inserts one more; in general extraction collects
the fragments in order, keeps the non empty ones, joins them with single
spaces and strips the outer whitespace. -/
theorem C3_extraction_amended :
    extract_user_message exampleParts = "analyze  this"
    ∧ ∀ parts : List MsgPart,
        extract_user_message parts =
          pyStrip (joinWith " " ((fragmentsClaim parts).filter (fun t => !(t == "")))) := by
  constructor
  · rfl
  · intro parts
    rw [extract_user_message, collectPartTexts_eq]

/-- C3 counterexample: the claimed round trip value with a single interior
space is not the extraction result. -/
theorem C3_counterexample : ¬ (extract_user_message exampleParts = "analyze this") := by
  decide

/-- C4 amended: the two structure checks are evaluated only inside the Python
branch; for Python code the improvements follow exactly the two checks, for
JavaScript and TypeScript the improvements list is always empty, and for any
other language it is the fixed two element list regardless of line count. -/
theorem C4_structure_checks (code : String) (q : Option String) :
    ((analyze_python_code code q).improvements =
      (if (pySplitLines code).length > 50 then [msgPyBreak] else [])
      ++ (if !((pySplitLines code).any (fun l => strContains l "def "))
            && (pySplitLines code).length > 10 then [msgPyOrganize] else []))
    ∧ (∀ lang, pyLower lang = "javascript" ∨ pyLower lang = "typescript" →
        (analyze_code_telex code lang q).improvements = [])
    ∧ (pyStrip code ≠ "" → ∀ lang, pyLower lang ≠ "python" →
        ¬(pyLower lang = "javascript" ∨ pyLower lang = "typescript") →
        (analyze_code_telex code lang q).improvements =
          ["Consider adding unit tests", "Review code for potential performance bottlenecks"]) := by
  refine ⟨rfl, ?_, ?_⟩
  · intro lang hl
    by_cases hb : pyStrip code = ""
    · simp [analyze_code_telex, hb]
    · rcases hl with h | h <;> simp [analyze_code_telex, hb, h, analyze_js_code]
  · intro hb lang hp hjs
    simp [analyze_code_telex, hb, hp, hjs, analyze_general_code]

/-- C4 witness: for the concrete non Python language ruby the improvements are
the fixed pair, not the structure check results. -/
theorem C4_structure_checks_witness :
    (analyze_code_telex "alert(1);" "ruby" none).improvements =
      ["Consider adding unit tests", "Review code for potential performance bottlenecks"] :=
  (C4_structure_checks "alert(1);" none).2.2 (by decide) "ruby" (by decide) (by decide)

set_option maxRecDepth 4000 in
/-- C4 counterexample: a 55 line JavaScript body with no function marker gets
an empty improvements list, while the claim demands the break into smaller
functions improvement for every language once the line count exceeds 50. -/
theorem C4_counterexample :
    (pySplitLines jsLongCode).length > 50
    ∧ pyStrip jsLongCode ≠ ""
    ∧ (analyze_code_telex jsLongCode "javascript" none).improvements = [] := by
  refine ⟨by decide, by decide, ?_⟩
  have hb : pyStrip jsLongCode ≠ "" := by decide
  simp [analyze_code_telex, hb, analyze_js_code, show pyLower "javascript" = "javascript" from rfl]

/-- C5: evaluation of the JavaScript analyzer at the failing input of the code
bug: with the question argument absent, the console.log issue is appended even
though the code does not contain console.log, because the conditional
expression of line 113 groups as (A and B) if question else True. -/
theorem C5_console_flag_eval :
    (analyze_js_code "let x = 1;" none).potential_issues = [msgJsConsole]
    ∧ strContains "let x = 1;" "console.log" = false := by
  constructor <;> rfl

/-- C6: for Python code containing both import star and an eval call, both
variants list the import star issue first, then the eval issue, then the bare
except issue when present, and the suggestion lists follow the same order. -/
theorem C6_issue_order (code : String) (q : Option String)
    (h1 : strContains code "import *" = true) (h2 : strContains code "eval(" = true) :
    ((analyze_python_code code q).potential_issues =
      [msgPyImportIssue, msgPyEvalIssue]
      ++ (if strContains code "except:" || strContains code "except Exception:"
          then [msgPyExceptIssue] else []))
    ∧ ((analyze_python_code code q).suggestions =
      [msgPyImportSug, msgPyEvalSug]
      ++ (if strContains code "except:" || strContains code "except Exception:"
          then [msgPyExceptSug] else []))
    ∧ ((analyze_code_app code "python").issues =
      some (["Avoid \x27import *\x27 - it pollutes namespace", "eval() can be dangerous"]
        ++ (if strContains code "except:" then ["Bare except clause"] else []))) := by
  have hne : pyStrip code ≠ "" :=
    pyStrip_ne_empty h1 (show 'm' ∈ ("import *" : String).data by decide) (by decide)
  have hpy : pyLower "python" = "python" := rfl
  refine ⟨?_, ?_, ?_⟩
  · simp [analyze_python_code, h1, h2]
  · simp [analyze_python_code, h1, h2]
  · simp [analyze_code_app, hne, hpy, h1, h2]

/-- C6 witness: a two line Python body with both patterns and no bare except
clause. -/
theorem C6_issue_order_witness :
    (analyze_python_code "import *\neval(x)" none).potential_issues =
      [msgPyImportIssue, msgPyEvalIssue]
      ++ (if strContains "import *\neval(x)" "except:"
            || strContains "import *\neval(x)" "except Exception:"
          then [msgPyExceptIssue] else []) :=
  (C6_issue_order "import *\neval(x)" none (by decide) (by decide)).1

/-- C8 amended: for empty or whitespace only code the telex_code_helper.py
analyzer returns the no code summary with all three sequences present and
empty; the app.py variant returns only the summary (see the counterexample). -/
theorem C8_blank_code (code : String) (lang : String) (q : Option String)
    (h : pyStrip code = "") :
    analyze_code_telex code lang q =
      { analysis := "No code provided for analysis.",
        suggestions := [], improvements := [], potential_issues := [] } := by
  unfold analyze_code_telex
  rw [if_pos h]

/-- C8 witness: three spaces of code produce the empty result record. -/
theorem C8_blank_code_witness :
    analyze_code_telex "   " "python" none =
      { analysis := "No code provided for analysis.",
        suggestions := [], improvements := [], potential_issues := [] } :=
  C8_blank_code "   " "python" none (by decide)

/-- C8 counterexample: the app.py analyzer answers whitespace only code with a
record that carries no suggestions and no issues sequences at all, against the
claim that all sequences are present and empty. -/
theorem C8_counterexample :
    (analyze_code_app "   " "python").suggestions = none
    ∧ (analyze_code_app "   " "python").issues = none := by
  constructor <;> rfl

/-- C7 amended: the telex_code_helper.py concept lookup performs exactly the
claimed case folded substring match over the fixed keys in enumeration order,
with the generic templated fallback embedding the concept verbatim; the app.py
variant instead uses exact key lookup (see the counterexample). -/
theorem C7_concept_lookup (c : String) (l : Option String) :
    explain_concept_telex c l = explainConceptClaim c l := by
  unfold explain_concept_telex explainConceptClaim
  simp only [telexExplanations, conceptKeys]
  cases h1 : strContains (pyLower c) "oop" <;>
    cases h2 : strContains (pyLower c) "api" <;>
      cases h3 : strContains (pyLower c) "rest" <;>
        cases h4 : strContains (pyLower c) "mvc" <;>
          cases h5 : strContains (pyLower c) "docker" <;>
            cases h6 : strContains (pyLower c) "git" <;>
              simp [List.find?, h1, h2, h3, h4, h5, h6, claimConceptText]

/-- C7 counterexample: the app.py lookup answers a concept that contains the
key oop as a proper substring with the fallback message instead of the oop
explanation, so that variant is not a substring match. -/
theorem C7_counterexample :
    strContains (pyLower "oop concepts") "oop" = true
    ∧ explain_concept_app "oop concepts" =
        "oop concepts is a programming concept worth learning! I can explain OOP, API, REST, MVC, Docker, Git." := by
  constructor <;> rfl

/-- C2: a completed task built with a non empty original message has exactly
the user entry then the agent entry in its history, a failed task has exactly
the agent entry, and in every case the artifacts list is exactly one entry
carrying the reply text. -/
theorem C2_history_invariant (uuid : Nat → String) (ts : String) (rid : Option String)
    (reply m : String) (hm : m ≠ "") :
    ((create_jsonrpc_response uuid ts rid reply (some m) "completed").result.history.map
        historyShape = [("user", [m]), ("agent", [reply])])
    ∧ (∀ um : Option String,
        (create_jsonrpc_response uuid ts rid reply um "failed").result.history.map
          historyShape = [("agent", [reply])])
    ∧ (∀ (um : Option String) (st : String),
        (create_jsonrpc_response uuid ts rid reply um st).result.artifacts.map
          artifactTexts = [[reply]]) := by
  refine ⟨?_, ?_, ?_⟩
  · simp [create_jsonrpc_response, pyTruthyStr, hm, historyShape, mkMessageEntry]
  · intro um
    cases um <;> simp [create_jsonrpc_response, pyTruthyStr, historyShape, mkMessageEntry]
  · intro um st
    simp [create_jsonrpc_response, artifactTexts]

/-- C2 witness: a concrete completed envelope with message hi and reply ok. -/
theorem C2_history_invariant_witness :
    (create_jsonrpc_response (fun _ => "u") "t" none "ok" (some "hi") "completed").result.history.map
      historyShape = [("user", ["hi"]), ("agent", ["ok"])] :=
  (C2_history_invariant (fun _ => "u") "t" none "ok" "hi" (by decide)).1

/-- C9: for every non empty JSON-RPC request whose method is not message/send
the pipeline returns a well formed failed task whose reply text contains the
substring Unknown method, with the agent only history and single artifact. -/
theorem C9_unknown_method (uuid : Nat → String) (ts : String) (r : RpcRequest)
    (h : r.method.getD "" ≠ "message/send") (resp : JsonRpcResponse)
    (hresp : resp = handle_lingflow uuid ts (some r)) :
    resp.jsonrpc = "2.0"
    ∧ resp.result.status.state = "failed"
    ∧ (resp.result.status.message.parts.any
        (fun p => strContains p.text "Unknown method")) = true
    ∧ resp.result.status.message.parts.map (fun p => p.text) = [unknownMethodText]
    ∧ resp.result.history.map historyShape = [("agent", [unknownMethodText])]
    ∧ resp.result.artifacts.map artifactTexts = [[unknownMethodText]] := by
  subst hresp
  rw [handle_lingflow]
  rw [if_pos h]
  refine ⟨rfl, rfl, ?_, rfl, ?_, rfl⟩
  · have hc : strContains unknownMethodText "Unknown method" = true := by decide
    simp [create_jsonrpc_response, mkMessageEntry, hc]
  · simp [create_jsonrpc_response, pyTruthyStr, historyShape, mkMessageEntry]

/-- C9 witness: the concrete request with method ping yields a failed task
whose status message mentions the unknown method. -/
theorem C9_unknown_method_witness :
    (handle_lingflow (fun _ => "u") "t" (some ⟨some "1", some "ping", []⟩)).result.status.state
      = "failed"
    ∧ ((handle_lingflow (fun _ => "u") "t"
        (some ⟨some "1", some "ping", []⟩)).result.status.message.parts.any
          (fun p => strContains p.text "Unknown method")) = true :=
  ⟨(C9_unknown_method (fun _ => "u") "t" ⟨some "1", some "ping", []⟩ (by decide) _ rfl).2.1,
   (C9_unknown_method (fun _ => "u") "t" ⟨some "1", some "ping", []⟩ (by decide) _ rfl).2.2.1⟩

/-- C10: the reply text is replicated into the status message part, the single
artifact part and the final agent history entry, the version field is the
literal 2.0, and the id echoes a truthy request id and is the empty string
otherwise. -/
theorem C10_reply_replication (uuid : Nat → String) (ts : String) (rid : Option String)
    (reply : String) (um : Option String) (st : String) (resp : JsonRpcResponse)
    (hr : resp = create_jsonrpc_response uuid ts rid reply um st) :
    resp.jsonrpc = "2.0"
    ∧ resp.result.status.message.role = "agent"
    ∧ resp.result.status.message.parts.map (fun p => p.text) = [reply]
    ∧ resp.result.artifacts.map artifactTexts = [[reply]]
    ∧ (resp.result.history.map historyShape).getLast? = some ("agent", [reply])
    ∧ (rid = none → resp.id = "")
    ∧ (rid = some "" → resp.id = "")
    ∧ (∀ s, rid = some s → s ≠ "" → resp.id = s) := by
  subst hr
  refine ⟨rfl, rfl, rfl, rfl, ?_, ?_, ?_, ?_⟩
  · cases h : (pyTruthyStr um && decide (st = "completed")) <;>
      simp [create_jsonrpc_response, h, historyShape, mkMessageEntry]
  · intro h; subst h; rfl
  · intro h; subst h; rfl
  · intro s hs hne
    subst hs
    simp [create_jsonrpc_response, hne]

/-- C10 witness: a truthy request id 7 is echoed back in the id field. -/
theorem C10_reply_replication_witness :
    (create_jsonrpc_response (fun _ => "u") "t" (some "7") "ok" none "completed").id = "7" :=
  (C10_reply_replication (fun _ => "u") "t" (some "7") "ok" none "completed" _
    rfl).2.2.2.2.2.2.2 "7" rfl (by decide)
